import Mathlib

/-!
Formal model of the transaction ledger and financial-insights subsystem of the
TaxWise backend.  The definitions below transliterate the Python functions in
`backend/local_auth.py`, `backend/app/routes/dashboard.py` and
`backend/app/routes/file_processing.py` into Lean:

* Python strings become `List Char` (`Str`), so that all string operations are
  kernel-computable; SQLite TEXT comparison is the lexicographic order on
  `List Char`.
* SQLite REAL amounts become `ℚ` (exact arithmetic; binary floating-point
  rounding artifacts are not modelled).
* Python dicts holding SQL rows become structures; a key that may be absent
  (`dict['k']` raising `KeyError`) or a value that may be SQL `NULL` becomes an
  `Option` field.
* `sqlite3` timestamps become `ℕ` ticks; `datetime.now()` is an explicit
  parameter `now`.
* A caught exception that the Python code converts to
  `{'success': False, ...}` becomes the failure branch of the translated
  function.
-/

namespace TaxWise

/-- Model of a Python string: its list of characters. -/
abbrev Str := List Char

/-- Coercion from a Lean string literal to the model type. -/
def str (s : String) : Str := s.data

/-! ## Ledger store: `backend/local_auth.py`

`transactions` table rows (schema from `init_local_db`). -/

/-- Row of the `transactions` table, as returned by
`get_user_transactions` in `local_auth.py`. -/
structure TxRow where
  id : Str
  user_id : Str
  file_id : Option Str
  date : Str
  description : Str
  amount : ℚ
  transaction_type : Str
  category : Option Str
  subcategory : Option Str
  is_recurring : Bool
  recurring_frequency : Option Str
  tax_relevant : Bool
  tax_section : Option Str
deriving DecidableEq

/-- Python dict passed to `store_transaction`.  A field read with
`transaction_data['k']` (raising `KeyError` when absent) or bound to a
`NOT NULL` column (rejected by SQLite when `None`) is modelled as `Option`;
`none` covers both "key absent" and "value is None", since either way the
`INSERT` fails and the caught exception yields `{'success': False}`. -/
structure TxData where
  user_id : Option Str
  file_id : Option Str
  date : Option Str
  description : Option Str
  amount : Option ℚ
  transaction_type : Option Str
  category : Option Str
  subcategory : Option Str
  is_recurring : Bool
  recurring_frequency : Option Str
  tax_relevant : Bool
  tax_section : Option Str
deriving DecidableEq

/-- Result of `store_transaction`: the success flag of the returned dict
together with the database state after the call (the ledger is a list of rows
in insertion order). -/
structure StoreResult where
  success : Bool
  db : List TxRow
deriving DecidableEq

/-- Translation of `local_auth.store_transaction`.  `newId` stands for the
freshly minted `uuid.uuid4()` string.  The Python function runs a single
`INSERT` with no validation of the field values: it fails only when a
required field is missing (a `KeyError` or a `NOT NULL` violation, both
caught and turned into `{'success': False}`), and otherwise appends the row
exactly as given. -/
def store_transaction (db : List TxRow) (newId : Str) (t : TxData) : StoreResult :=
  match t.user_id, t.date, t.description, t.amount, t.transaction_type with
  | some uid, some d, some desc, some amt, some ty =>
      { success := true
        db := db ++ [{ id := newId, user_id := uid, file_id := t.file_id, date := d,
                       description := desc, amount := amt, transaction_type := ty,
                       category := t.category, subcategory := t.subcategory,
                       is_recurring := t.is_recurring,
                       recurring_frequency := t.recurring_frequency,
                       tax_relevant := t.tax_relevant, tax_section := t.tax_section }] }
  | _, _, _, _, _ => { success := false, db := db }

/-- Candidate with a negative amount and an unrecognized type, all required
fields present. -/
def negCand : TxData :=
  { user_id := some (str "u1"), file_id := none, date := some (str "2024-01-02"),
    description := some (str "weird row"), amount := some (-5),
    transaction_type := some (str "transfer"), category := none, subcategory := none,
    is_recurring := false, recurring_frequency := none,
    tax_relevant := false, tax_section := none }

/-- Well-formed candidate used to instantiate the amended C1 statement. -/
def okCand : TxData :=
  { user_id := some (str "u1"), file_id := none, date := some (str "2024-01-03"),
    description := some (str "salary"), amount := some 1000,
    transaction_type := some (str "credit"), category := none, subcategory := none,
    is_recurring := false, recurring_frequency := none,
    tax_relevant := false, tax_section := none }

/-- C1, counterexample: `store_transaction` accepts and persists a candidate
whose amount is `-5` and whose type is `"transfer"`, so the ledger append
neither rejects negative amounts nor rejects unrecognized types, and a
persisted transaction can have `amount < 0`. -/
theorem claim_C1_counterexample :
    (store_transaction [] (str "t-1") negCand).success = true ∧
    (store_transaction [] (str "t-1") negCand).db.map TxRow.amount = [-5] ∧
    (store_transaction [] (str "t-1") negCand).db.map TxRow.transaction_type
      = [str "transfer"] ∧
    ¬ (0 : ℚ) ≤ -5 := by
  refine ⟨rfl, rfl, rfl, by norm_num⟩

/-- C1 (amended): `store_transaction` succeeds exactly when the five required
fields (`user_id`, `date`, `description`, `amount`, `transaction_type`) are
present; when it fails nothing is persisted; when it succeeds the candidate is
appended verbatim — any amount (negative included) and any type string are
stored unchanged. -/
theorem claim_C1 (db : List TxRow) (newId : Str) (t : TxData) :
    ((store_transaction db newId t).success = true ↔
      t.user_id.isSome = true ∧ t.date.isSome = true ∧ t.description.isSome = true ∧
        t.amount.isSome = true ∧ t.transaction_type.isSome = true) ∧
    ((store_transaction db newId t).success = false →
      (store_transaction db newId t).db = db) ∧
    (∀ uid d desc amt ty, t.user_id = some uid → t.date = some d →
      t.description = some desc → t.amount = some amt → t.transaction_type = some ty →
      (store_transaction db newId t).db = db ++
        [{ id := newId, user_id := uid, file_id := t.file_id, date := d,
           description := desc, amount := amt, transaction_type := ty,
           category := t.category, subcategory := t.subcategory,
           is_recurring := t.is_recurring,
           recurring_frequency := t.recurring_frequency,
           tax_relevant := t.tax_relevant, tax_section := t.tax_section }]) := by
  rcases t with ⟨u, fi, d, de, a, ty, c, sc, ir, rf, tr, ts⟩
  rcases u with _ | u <;> rcases d with _ | d <;> rcases de with _ | de <;>
    rcases a with _ | a <;> rcases ty with _ | ty <;>
    simp [store_transaction]
  intro uid d1 desc amt ty1 h1 h2 h3 h4 h5
  exact ⟨h1, h2, h3, h4, h5⟩

/-- C1, witness: instantiating the amended statement on a concrete candidate
with every required field present appends exactly that row. -/
theorem claim_C1_witness :
    (store_transaction [] (str "t-2") okCand).db =
      [{ id := str "t-2", user_id := str "u1", file_id := none,
         date := str "2024-01-03", description := str "salary", amount := 1000,
         transaction_type := str "credit", category := none, subcategory := none,
         is_recurring := false, recurring_frequency := none,
         tax_relevant := false, tax_section := none }] := by
  simpa using (claim_C1 [] (str "t-2") okCand).2.2
    (str "u1") (str "2024-01-03") (str "salary") 1000 (str "credit")
    rfl rfl rfl rfl rfl

/-! ## Ledger query and summary: `get_user_transactions`, `get_transaction_summary` -/

/-- Optional filters dict passed to `get_user_transactions`; `none` models a
key that is absent from the dict. -/
structure TxFilters where
  category : Option Str
  transaction_type : Option Str
  start_date : Option Str
  end_date : Option Str
deriving DecidableEq

/-- Call with no filters dict (Python default `filters=None`). -/
def noFilters : TxFilters := ⟨none, none, none, none⟩

/-- Conjunction of the `AND` clauses that `get_user_transactions` appends for
each filter key that is present.  `category = ?` compares SQL `NULL` as
not-equal, hence the comparison with `some`; the date bounds are the inclusive
`date >= ?` / `date <= ?` TEXT comparisons. -/
def matchesFilters (f : TxFilters) (r : TxRow) : Bool :=
  (match f.category with
   | none => true
   | some c => r.category == some c) &&
  (match f.transaction_type with
   | none => true
   | some ty => r.transaction_type == ty) &&
  (match f.start_date with
   | none => true
   | some sd => decide (sd ≤ r.date)) &&
  (match f.end_date with
   | none => true
   | some ed => decide (r.date ≤ ed))

/-- Full `WHERE` clause of `get_user_transactions`: the mandatory
`user_id = ?` conjoined with the optional filters. -/
def rowSelected (uid : Str) (f : TxFilters) (r : TxRow) : Bool :=
  r.user_id == uid && matchesFilters f r

/-- Ordering relation of the `ORDER BY date DESC` clause. -/
def dateDesc (a b : TxRow) : Prop := b.date ≤ a.date

instance : DecidableRel dateDesc :=
  fun a b => inferInstanceAs (Decidable (b.date ≤ a.date))

instance : IsTotal TxRow dateDesc := ⟨fun a b => le_total b.date a.date⟩

instance : IsTrans TxRow dateDesc := ⟨fun _ _ _ hab hbc => le_trans hbc hab⟩

/-- Result dict of `get_user_transactions`. -/
structure QueryResult where
  success : Bool
  transactions : List TxRow
deriving DecidableEq

/-- Translation of `local_auth.get_user_transactions`: `SELECT * FROM
transactions WHERE user_id = ? [AND <filters>] ORDER BY date DESC LIMIT ?
OFFSET ?`.  The ledger list is kept in insertion (rowid) order; `ORDER BY
date DESC` is modelled as a sort by descending date (SQLite leaves the order
of equal dates unspecified; the sort used here is one refinement of it).  The
Python signature defaults to `limit=1000, offset=0` and clamps neither
value. -/
def get_user_transactions (db : List TxRow) (uid : Str) (limit offset : ℕ)
    (f : TxFilters) : QueryResult :=
  { success := true
    transactions :=
      ((List.insertionSort dateDesc (db.filter (rowSelected uid f))).drop offset).take
        limit }

/-- Summary dict built by `get_transaction_summary`; a category-breakdown
entry is `(category, count, summed amount)`. -/
structure TxSummary where
  total_transactions : ℕ
  total_income : ℚ
  total_expenses : ℚ
  net_savings : ℚ
  categories : List (Str × ℕ × ℚ)
deriving DecidableEq

/-- Translation of `local_auth.get_transaction_summary`: one aggregate over
all rows with `user_id = ?` (credit sum, debit sum, count) plus a `GROUP BY
category` breakdown restricted to rows whose category is not `NULL`.
`SUM(...)` of zero rows is SQL `NULL`, which the Python replaces by `0`
(`total_income or 0`); the empty sum over `ℚ` is already `0`. -/
def get_transaction_summary (db : List TxRow) (uid : Str) : TxSummary :=
  let rows := db.filter (fun r => r.user_id == uid)
  let income := ((rows.filter (fun r => r.transaction_type == str "credit")).map
    TxRow.amount).sum
  let expenses := ((rows.filter (fun r => r.transaction_type == str "debit")).map
    TxRow.amount).sum
  { total_transactions := rows.length
    total_income := income
    total_expenses := expenses
    net_savings := income - expenses
    categories :=
      (rows.filterMap TxRow.category).dedup.map (fun c =>
        let cs := rows.filter (fun r => r.category == some c)
        (c, cs.length, (cs.map TxRow.amount).sum)) }

/-- C2 (confirmed): every row returned by the ledger query belongs to the
requested user, whatever the filters and pagination; and the summary of a
database is the summary of that user's rows alone, so rows of other users can
never influence either operation. -/
theorem claim_C2 (db : List TxRow) (uid : Str) (limit offset : ℕ) (f : TxFilters) :
    (∀ t ∈ (get_user_transactions db uid limit offset f).transactions,
      t.user_id = uid) ∧
    get_transaction_summary db uid =
      get_transaction_summary (db.filter (fun r => r.user_id == uid)) uid := by
  constructor
  · intro t ht
    have h1 : t ∈ List.insertionSort dateDesc (db.filter (rowSelected uid f)) :=
      List.mem_of_mem_drop (List.mem_of_mem_take ht)
    have h2 : t ∈ db.filter (rowSelected uid f) :=
      ((List.perm_insertionSort dateDesc _).mem_iff).1 h1
    have h3 := (List.mem_filter.1 h2).2
    simp only [rowSelected, Bool.and_eq_true, beq_iff_eq] at h3
    exact h3.1
  · simp only [get_transaction_summary, List.filter_filter, Bool.and_self]

/-- C2, witness: in a two-user ledger the query for user `u1` with a filter
value shared by both users returns only the `u1` row, whose ownership follows
by instantiating the theorem. -/
theorem claim_C2_witness :
    ({ id := str "a", user_id := str "u1", file_id := none, date := str "2024-01-05",
       description := str "shared", amount := 7, transaction_type := str "debit",
       category := some (str "Food"), subcategory := none, is_recurring := false,
       recurring_frequency := none, tax_relevant := false,
       tax_section := none } : TxRow).user_id = str "u1" :=
  (claim_C2
    [{ id := str "a", user_id := str "u1", file_id := none, date := str "2024-01-05",
       description := str "shared", amount := 7, transaction_type := str "debit",
       category := some (str "Food"), subcategory := none, is_recurring := false,
       recurring_frequency := none, tax_relevant := false, tax_section := none },
     { id := str "b", user_id := str "u2", file_id := none, date := str "2024-01-06",
       description := str "shared", amount := 9, transaction_type := str "debit",
       category := some (str "Food"), subcategory := none, is_recurring := false,
       recurring_frequency := none, tax_relevant := false, tax_section := none }]
    (str "u1") 1000 0 ⟨some (str "Food"), none, none, none⟩).1 _ (by decide)

/-- Identical-looking ledger row used 101 times to exceed the alleged page cap. -/
def simpleRow : TxRow :=
  { id := str "r", user_id := str "u1", file_id := none, date := str "2024-02-01",
    description := str "row", amount := 1, transaction_type := str "debit",
    category := none, subcategory := none, is_recurring := false,
    recurring_frequency := none, tax_relevant := false, tax_section := none }

/-- C10, counterexample: `get_user_transactions` performs no clamping of the
requested limit — with the Python default `limit=1000` a 101-row ledger comes
back whole, so no maximum page size of 100 is enforced by the ledger query. -/
theorem claim_C10_counterexample :
    (get_user_transactions (List.replicate 101 simpleRow) (str "u1") 1000 0
        noFilters).transactions.length = 101 ∧
    ¬ (101 ≤ 100) := ⟨by decide, by decide⟩

/-- C10 (amended): the ledger query returns the rows sorted by date
descending and paginates by offset/limit — the page is exactly the
`[offset, offset+limit)` window of the sorted filtered rows, with length
`min limit (total - offset)` — but the limit is passed through to the SQL
`LIMIT` clause unclamped (Python default 1000); only the separate
Supabase-backed route caps `per_page` at 100. -/
theorem claim_C10 (db : List TxRow) (uid : Str) (limit offset : ℕ) (f : TxFilters) :
    (get_user_transactions db uid limit offset f).success = true ∧
    List.Sorted dateDesc (get_user_transactions db uid limit offset f).transactions ∧
    (get_user_transactions db uid limit offset f).transactions.length =
      min limit ((db.filter (rowSelected uid f)).length - offset) ∧
    (get_user_transactions db uid limit offset f).transactions =
      ((get_user_transactions db uid (offset + limit) 0 f).transactions).drop offset := by
  refine ⟨rfl, ?_, ?_, ?_⟩
  · exact List.Pairwise.sublist
      ((List.take_sublist _ _).trans (List.drop_sublist _ _))
      (List.sorted_insertionSort dateDesc _)
  · simp only [get_user_transactions]
    rw [List.length_take, List.length_drop,
      (List.perm_insertionSort dateDesc _).length_eq]
  · simp only [get_user_transactions, List.drop_zero]
    exact List.take_drop offset limit _

/-! ## Credential and session store: `verify_token` -/

/-- Row of the `users` table (columns selected by `verify_token`). -/
structure UserRow where
  id : Str
  email : Str
  name : Str
  phone : Str
  pan : Str
deriving DecidableEq

/-- Row of the `sessions` table; `expires_at` is a timestamp in ticks. -/
structure SessionRow where
  token : Str
  user_id : Str
  expires_at : ℕ
deriving DecidableEq

/-- Users and sessions tables of the local auth database. -/
structure AuthDB where
  users : List UserRow
  sessions : List SessionRow
deriving DecidableEq

/-- Translation of `local_auth.verify_token`: the single query `SELECT u.*
FROM sessions s JOIN users u ON s.user_id = u.id WHERE s.token = ? AND
s.expires_at > ?` with `fetchone`, where `?` is `datetime.now()`.  The
function runs no `UPDATE`; returning the database unchanged makes that
explicit.  `none` is the `{'success': False, 'error': 'Invalid or expired
token'}` outcome. -/
def verify_token (db : AuthDB) (token : Str) (now : ℕ) : Option UserRow × AuthDB :=
  (match db.sessions.find?
      (fun s => s.token == token && decide (now < s.expires_at)) with
   | none => none
   | some s => db.users.find? (fun u => u.id == s.user_id), db)

/-- C4 (confirmed): in any state where each session references an existing
user (as every session minted by `login_user` does), `verify_token` succeeds
exactly when a session with that token exists whose expiry is strictly later
than the current time — so it fails for an absent token and from the instant
`now ≥ expires_at` onward — it returns the owning user, and it leaves the
session store untouched (no sliding expiration). -/
theorem claim_C4 (db : AuthDB) (token : Str) (now : ℕ)
    (hU : ∀ s ∈ db.sessions, ∃ u ∈ db.users, u.id = s.user_id) :
    ((verify_token db token now).1.isSome = true ↔
      ∃ s ∈ db.sessions, s.token = token ∧ now < s.expires_at) ∧
    (∀ u, (verify_token db token now).1 = some u →
      u ∈ db.users ∧
        ∃ s ∈ db.sessions, s.token = token ∧ now < s.expires_at ∧ u.id = s.user_id) ∧
    (verify_token db token now).2 = db := by
  unfold verify_token
  rcases hfind : db.sessions.find?
      (fun s => s.token == token && decide (now < s.expires_at)) with _ | s
  · simp only [hfind]
    rw [List.find?_eq_none] at hfind
    refine ⟨⟨fun h => by simp at h, ?_⟩, fun u hu => by simp at hu, trivial⟩
    rintro ⟨s, hs, h1, h2⟩
    have h3 := hfind s hs
    simp only [Bool.and_eq_true, beq_iff_eq, decide_eq_true_eq, not_and] at h3
    exact absurd h2 (h3 h1)
  · simp only [hfind]
    have hmem : s ∈ db.sessions := List.mem_of_find?_eq_some hfind
    have hp := List.find?_some hfind
    simp only [Bool.and_eq_true, beq_iff_eq, decide_eq_true_eq] at hp
    obtain ⟨u0, hu0, hid0⟩ := hU s hmem
    have husers : (db.users.find? (fun u => u.id == s.user_id)).isSome = true :=
      List.find?_isSome.2 ⟨u0, hu0, by simp [hid0]⟩
    refine ⟨⟨fun _ => ⟨s, hmem, hp.1, hp.2⟩, fun _ => husers⟩,
      fun u hu => ?_, trivial⟩
    have humem : u ∈ db.users := List.mem_of_find?_eq_some hu
    have huid := List.find?_some hu
    simp only [beq_iff_eq] at huid
    exact ⟨humem, s, hmem, hp.1, hp.2, huid⟩

/-- Auth state with one user and one session expiring at tick 100. -/
def authDB1 : AuthDB :=
  { users := [{ id := str "u1", email := str "a@b.c", name := str "A",
                phone := str "1", pan := str "P" }]
    sessions := [{ token := str "tok", user_id := str "u1", expires_at := 100 }] }

/-- C4, witness: on a concrete store the session verifies strictly before its
expiry (tick 50) and is rejected at the instant of expiry (tick 100). -/
theorem claim_C4_witness :
    (verify_token authDB1 (str "tok") 50).1.isSome = true ∧
    (verify_token authDB1 (str "tok") 100).1.isSome = false ∧
    (verify_token authDB1 (str "tok") 50).2 = authDB1 :=
  ⟨(claim_C4 authDB1 (str "tok") 50 (by decide)).1.mpr
      ⟨{ token := str "tok", user_id := str "u1", expires_at := 100 },
        by decide, by decide, by decide⟩,
    by decide,
    (claim_C4 authDB1 (str "tok") 50 (by decide)).2.2⟩

/-! ## Aggregation and insights: `backend/app/routes/dashboard.py` -/

/-- Python `int(x)` on a number: truncation toward zero. -/
def pyInt (q : ℚ) : ℤ := if 0 ≤ q then ⌊q⌋ else ⌈q⌉

/-- Python `round(x, 1)`: rounding to one decimal place, ties to the even
tenth (exact rational model of `round`; binary floating-point artifacts are
not modelled). -/
def pyRound1 (q : ℚ) : ℚ :=
  let n : ℚ := q * 10
  let f : ℤ := ⌊n⌋
  let k : ℤ :=
    if n - f < 1 / 2 then f
    else if 1 / 2 < n - f then f + 1
    else if f % 2 = 0 then f else f + 1
  (k : ℚ) / 10

/-- Financial-summary dict of the dashboard overview.  The first five fields
pass through Python `int(...)`, hence `ℤ`; `savings_rate` passes through
`round(..., 1)`, hence `ℚ`. -/
structure FinSummary where
  total_income : ℤ
  total_expenses : ℤ
  net_savings : ℤ
  monthly_income : ℤ
  monthly_expenses : ℤ
  savings_rate : ℚ
deriving DecidableEq

/-- Translation of `dashboard.get_empty_financial_summary`. -/
def get_empty_financial_summary : FinSummary := ⟨0, 0, 0, 0, 0, 0⟩

/-- Translation of `dashboard.calculate_financial_summary_from_data`.
`days` is `(end_date - start_date).days`; the float constant `30.44` is the
exact rational `761/25`.  Credits are summed as given, debits through
`abs(...)`; the five integer fields are `int(...)`-truncated; the savings
rate is computed from the untruncated sums and then rounded. -/
def calculate_financial_summary_from_data (transactions : List TxRow) (days : ℤ) :
    FinSummary :=
  if transactions.isEmpty then get_empty_financial_summary
  else
    let total_income : ℚ :=
      ((transactions.filter fun t => t.transaction_type == str "credit").map
        TxRow.amount).sum
    let total_expenses : ℚ :=
      ((transactions.filter fun t => t.transaction_type == str "debit").map
        (fun t => |t.amount|)).sum
    let net_savings : ℚ := total_income - total_expenses
    let months : ℚ := max 1 ((days : ℚ) / (761 / 25))
    let monthly_income : ℚ := if 0 < months then total_income / months else 0
    let monthly_expenses : ℚ := if 0 < months then total_expenses / months else 0
    let savings_rate : ℚ :=
      if 0 < total_income then net_savings / total_income * 100 else 0
    { total_income := pyInt total_income
      total_expenses := pyInt total_expenses
      net_savings := pyInt net_savings
      monthly_income := pyInt monthly_income
      monthly_expenses := pyInt monthly_expenses
      savings_rate := pyRound1 savings_rate }

/-- Spec-side formulation of total income: the sum over the whole window of
each transaction's contribution, a credit contributing its amount. -/
def creditSum (l : List TxRow) : ℚ :=
  (l.map fun t => if t.transaction_type == str "credit" then t.amount else 0).sum

/-- Spec-side formulation of total expenses: a debit contributes the absolute
value of its amount. -/
def debitAbsSum (l : List TxRow) : ℚ :=
  (l.map fun t => if t.transaction_type == str "debit" then |t.amount| else 0).sum

/-- Summing a function over the rows selected by a predicate is summing the
predicate-guarded contribution over all rows. -/
theorem sum_filter_map_eq (p : TxRow → Bool) (g : TxRow → ℚ) (l : List TxRow) :
    ((l.filter p).map g).sum = (l.map fun t => if p t then g t else 0).sum := by
  induction l with
  | nil => simp
  | cons a l ih => by_cases h : p a <;> simp [List.filter_cons, h, ih]

/-- Credit row with the fractional amount 100.5. -/
def fracRow : TxRow :=
  { id := str "f", user_id := str "u1", file_id := none, date := str "2024-01-10",
    description := str "fractional", amount := 201 / 2,
    transaction_type := str "credit", category := none, subcategory := none,
    is_recurring := false, recurring_frequency := none, tax_relevant := false,
    tax_section := none }

/-- C5, counterexample: for a window holding one credit of 100.5 the summary
reports `total_income = 100`, not the sum 100.5 of the credit amounts — the
code truncates every total through `int(...)`, so the summary fields are not
the sums the claim states. -/
theorem claim_C5_counterexample :
    (calculate_financial_summary_from_data [fracRow] 365).total_income = 100 ∧
    ((([fracRow] : List TxRow).filter fun t =>
        t.transaction_type == str "credit").map TxRow.amount).sum = 201 / 2 ∧
    (100 : ℚ) ≠ 201 / 2 := by
  have hc : (fracRow.transaction_type == str "credit") = true := by decide
  refine ⟨?_, by simp [List.filter_cons, hc]; norm_num [fracRow], by norm_num⟩
  norm_num [calculate_financial_summary_from_data, List.filter_cons, hc, pyInt,
    fracRow]

/-- C5 (amended): over an empty window every summary field is zero (never an
error); over a nonempty window `total_income` is the credit sum truncated
toward zero by `int(...)`, `total_expenses` the truncated sum of the absolute
values of the debit amounts, `net_savings` the truncation of the untruncated
difference, and `savings_rate` is `net/income*100` computed from the
untruncated sums when the credit sum is positive (else 0), rounded to one
decimal place. -/
theorem claim_C5 (transactions : List TxRow) (days : ℤ) :
    (transactions = [] →
      calculate_financial_summary_from_data transactions days =
        { total_income := 0, total_expenses := 0, net_savings := 0,
          monthly_income := 0, monthly_expenses := 0, savings_rate := 0 }) ∧
    (transactions ≠ [] →
      (calculate_financial_summary_from_data transactions days).total_income =
        pyInt (creditSum transactions) ∧
      (calculate_financial_summary_from_data transactions days).total_expenses =
        pyInt (debitAbsSum transactions) ∧
      (calculate_financial_summary_from_data transactions days).net_savings =
        pyInt (creditSum transactions - debitAbsSum transactions) ∧
      (calculate_financial_summary_from_data transactions days).savings_rate =
        pyRound1 (if 0 < creditSum transactions then
          (creditSum transactions - debitAbsSum transactions) /
            creditSum transactions * 100
        else 0)) := by
  constructor
  · rintro rfl
    simp [calculate_financial_summary_from_data, get_empty_financial_summary]
  · intro h
    have hne : transactions.isEmpty = false := by
      simpa [List.isEmpty_iff] using h
    simp only [calculate_financial_summary_from_data, hne, Bool.false_eq_true,
      if_false, creditSum, debitAbsSum, ← sum_filter_map_eq]
    exact ⟨trivial, trivial, trivial, trivial⟩

/-- C5, witness: the spec scenario — one credit of 50000 and one debit of
40000 — yields income 50000, expenses 40000, net 10000 and a savings rate of
exactly 20. -/
theorem claim_C5_witness :
    (calculate_financial_summary_from_data
      [{ id := str "s1", user_id := str "u1", file_id := none,
         date := str "2024-01-10", description := str "salary", amount := 50000,
         transaction_type := str "credit", category := none, subcategory := none,
         is_recurring := false, recurring_frequency := none, tax_relevant := false,
         tax_section := none },
       { id := str "s2", user_id := str "u1", file_id := none,
         date := str "2024-01-15", description := str "rent", amount := 40000,
         transaction_type := str "debit", category := none, subcategory := none,
         is_recurring := false, recurring_frequency := none, tax_relevant := false,
         tax_section := none }] 31).total_income = 50000 := by
  have h := ((claim_C5
    [{ id := str "s1", user_id := str "u1", file_id := none,
       date := str "2024-01-10", description := str "salary", amount := 50000,
       transaction_type := str "credit", category := none, subcategory := none,
       is_recurring := false, recurring_frequency := none, tax_relevant := false,
       tax_section := none },
     { id := str "s2", user_id := str "u1", file_id := none,
       date := str "2024-01-15", description := str "rent", amount := 40000,
       transaction_type := str "debit", category := none, subcategory := none,
       is_recurring := false, recurring_frequency := none, tax_relevant := false,
       tax_section := none }] 31).2 (by simp)).1
  rw [h]
  have hne : ¬ ((str "debit" : Str) = str "credit") := by decide
  norm_num [creditSum, pyInt, hne]

/-- Insight dict of `generate_insights_from_data`: its `type`, `impact` and
`action_required` keys.  The `message` key, an f-string whose content is
presentation-only, is not modelled. -/
structure Insight where
  itype : Str
  impact : Str
  action_required : Bool
deriving DecidableEq

/-- Insight appended when `total_income == 0` (urges a data upload). -/
def uploadDataInsight : Insight := ⟨str "info", str "high", true⟩

/-- Insight appended when `savings_rate < 10`. -/
def lowSavingsInsight : Insight := ⟨str "financial", str "high", true⟩

/-- Insight appended when `10 <= savings_rate < 20`. -/
def goodStartInsight : Insight := ⟨str "financial", str "medium", false⟩

/-- Insight appended when `savings_rate >= 30`. -/
def excellentInsight : Insight := ⟨str "financial", str "positive", false⟩

/-- Spending-review insight appended when `monthly_expenses > 0`. -/
def spendingInsight : Insight := ⟨str "spending", str "medium", false⟩

/-- Translation of `dashboard.generate_insights_from_data`.  The
`tax_summary` and `cibil_summary` arguments of the Python function are never
read, so they are not modelled.  The savings ladder is the Python
`if/elif` chain — at most one savings-related insight — followed by the
unconditional spending-review check and the `[:4]` truncation. -/
def generate_insights_from_data (s : FinSummary) : List Insight :=
  let insights : List Insight :=
    if s.total_income = 0 then [uploadDataInsight]
    else if s.savings_rate < 10 then [lowSavingsInsight]
    else if s.savings_rate < 20 then [goodStartInsight]
    else if 30 ≤ s.savings_rate then [excellentInsight]
    else []
  (insights ++ (if 0 < s.monthly_expenses then [spendingInsight] else [])).take 4

/-- C6 (confirmed): when `total_income > 0` and the savings rate lies in
`[20, 30)`, no savings-rate insight is generated — the result is exactly the
spending-review insight when `monthly_expenses > 0` and empty otherwise — and
for every summary whatsoever the insight list has at most 4 entries. -/
theorem claim_C6 (s : FinSummary) :
    (0 < s.total_income → 20 ≤ s.savings_rate → s.savings_rate < 30 →
      generate_insights_from_data s =
        if 0 < s.monthly_expenses then [spendingInsight] else []) ∧
    (generate_insights_from_data s).length ≤ 4 := by
  constructor
  · intro h1 h2 h3
    have hni : ¬ s.total_income = 0 := by omega
    have hr1 : ¬ s.savings_rate < 10 := by linarith
    have hr2 : ¬ s.savings_rate < 20 := by linarith
    have hr3 : ¬ 30 ≤ s.savings_rate := by linarith
    by_cases hm : 0 < s.monthly_expenses <;>
      simp [generate_insights_from_data, hni, hr1, hr2, hr3, hm]
  · exact List.length_take_le 4 _

/-- C6, witness: a summary with positive income, savings rate 25 and positive
monthly expenses yields exactly the spending-review insight. -/
theorem claim_C6_witness :
    generate_insights_from_data
      { total_income := 50000, total_expenses := 37500, net_savings := 12500,
        monthly_income := 4166, monthly_expenses := 3125, savings_rate := 25 } =
      [spendingInsight] := by
  have h := (claim_C6
    { total_income := 50000, total_expenses := 37500, net_savings := 12500,
      monthly_income := 4166, monthly_expenses := 3125, savings_rate := 25 }).1
    (by norm_num) (by norm_num) (by norm_num)
  simpa using h

/-- Debit-only window: 10000 of expenses, no income. -/
def debitOnlyRow : TxRow :=
  { id := str "d", user_id := str "u1", file_id := none, date := str "2024-01-05",
    description := str "rent", amount := 10000, transaction_type := str "debit",
    category := none, subcategory := none, is_recurring := false,
    recurring_frequency := none, tax_relevant := false, tax_section := none }

/-- C7, counterexample: a reachable summary with `total_income = 0` (one
debit of 10000 over a 30-day window) makes `generate_insights_from_data`
return TWO insights — the upload-data info insight and the spending-review
insight — not exactly one. -/
theorem claim_C7_counterexample :
    (calculate_financial_summary_from_data [debitOnlyRow] 30).total_income = 0 ∧
    generate_insights_from_data
        (calculate_financial_summary_from_data [debitOnlyRow] 30) =
      [uploadDataInsight, spendingInsight] ∧
    (generate_insights_from_data
        (calculate_financial_summary_from_data [debitOnlyRow] 30)).length ≠ 1 := by
  have hc : ¬ ((str "debit" : Str) = str "credit") := by decide
  have hsum : calculate_financial_summary_from_data [debitOnlyRow] 30 =
      { total_income := 0, total_expenses := 10000, net_savings := -10000,
        monthly_income := 0, monthly_expenses := 10000, savings_rate := 0 } := by
    norm_num [calculate_financial_summary_from_data, List.filter_cons, hc,
      debitOnlyRow, pyInt, pyRound1, Int.ceil_neg]
  rw [hsum]
  refine ⟨rfl, by decide, by decide⟩

/-- C7 (amended): when `total_income = 0` the first insight is the
upload-data info insight (`action_required = true`); it is the only insight
exactly when `monthly_expenses ≤ 0`, and when `monthly_expenses > 0` the
spending-review insight follows it, giving two insights. -/
theorem claim_C7 (s : FinSummary) (h : s.total_income = 0) :
    generate_insights_from_data s =
      uploadDataInsight ::
        (if 0 < s.monthly_expenses then [spendingInsight] else []) := by
  by_cases hm : 0 < s.monthly_expenses <;>
    simp [generate_insights_from_data, h, hm]

/-- C7, witness: with zero income and zero monthly expenses the amended
statement instantiates to the singleton info insight. -/
theorem claim_C7_witness :
    generate_insights_from_data get_empty_financial_summary = [uploadDataInsight] := by
  have h := claim_C7 get_empty_financial_summary (by decide)
  simpa using h

/-! ## Ingestion orchestration: `backend/app/routes/file_processing.py` -/

/-- Parsed transaction candidate handed over by the external `FileProcessor`
(date, description, amount, type).  `date = none` models a candidate whose
date value is malformed, so that `transaction_data['date'].isoformat()`
raises inside the per-candidate `try` block. -/
structure Candidate where
  date : Option Str
  description : Str
  amount : ℚ
  ctype : Str
deriving DecidableEq

/-- Verdict of the external `TransactionCategorizer` (a pure total function
of description and amount; it is universally quantified in the theorems
below, since its output never affects batch control flow). -/
structure CatInfo where
  category : Option Str
  subcategory : Option Str
  is_recurring : Bool
  frequency : Option Str
  tax_relevant : Bool
  tax_section : Option Str
deriving DecidableEq

/-- One iteration of the step-3 loop of `process_uploaded_file`: categorize
the candidate and build the `transaction_record` dict.  A malformed date
raises, the exception is caught, and the candidate is skipped (`none`);
otherwise every field required by `store_transaction` is present. -/
def mkTxRecord (categorize : Str → ℚ → CatInfo) (uid fileId : Str)
    (c : Candidate) : Option TxData :=
  c.date.map fun d =>
    let ci := categorize c.description c.amount
    { user_id := some uid, file_id := some fileId, date := some d,
      description := some c.description, amount := some c.amount,
      transaction_type := some c.ctype, category := ci.category,
      subcategory := ci.subcategory, is_recurring := ci.is_recurring,
      recurring_frequency := ci.frequency, tax_relevant := ci.tax_relevant,
      tax_section := ci.tax_section }

/-- Step-4 loop of `process_uploaded_file`: call `store_transaction` on each
record in turn (a failed store is logged and skipped), minting the `k`-th
fresh uuid with `freshId`.  Returns the final ledger and the
`stored_transactions` counter. -/
def storeAll (freshId : ℕ → Str) (k : ℕ) (db : List TxRow) :
    List TxData → List TxRow × ℕ
  | [] => (db, 0)
  | r :: rs =>
    let res := store_transaction db (freshId k) r
    let rest := storeAll freshId (k + 1) res.db rs
    (rest.1, (if res.success then 1 else 0) + rest.2)

/-- Step-6 category breakdown over the processed records (`t['amount']` is
always present in a record built by the loop; `getD 0` models that read). -/
def categoryBreakdown (records : List TxData) : List (Option Str × ℕ × ℚ) :=
  (records.map TxData.category).dedup.map fun c =>
    let cs := records.filter (fun r => r.category == c)
    (c, cs.length, (cs.map (fun r => r.amount.getD 0)).sum)

/-- The `processing_results` object of the response. -/
structure ProcessingResults where
  transactions_count : ℕ
  total_income : ℚ
  total_expenses : ℚ
  net_savings : ℚ
  categories : List (Option Str × ℕ × ℚ)
  transactions : List TxData
deriving DecidableEq

/-- Keys of the `processing_results` JSON object in the success response of
`process_uploaded_file`: the response carries a transaction count but no
accepted/rejected split. -/
def processingResultsKeys : List Str :=
  [str "transactions_count", str "total_income", str "total_expenses",
   str "net_savings", str "categories", str "transactions"]

/-- Suggestions carried by the `no transactions found` response. -/
def noTxSuggestions : List Str :=
  [str "Try uploading a bank statement with clear transaction data",
   str "Ensure the PDF is text-based (not scanned image)",
   str "CSV files should have standard banking format",
   str "Check that transactions are clearly formatted"]

/-- `next_steps` carried by the success response. -/
def nextStepsList : List Str :=
  [str "View AI Insights for personalized recommendations",
   str "Check Tax Optimization suggestions",
   str "Review transaction categorization",
   str "Generate comprehensive reports"]

/-- Response of `process_uploaded_file`, with its HTTP status code. -/
inductive ProcessResponse where
  | noTransactions (results : ProcessingResults) (suggestions : List Str)
      (status : ℕ)
  | completed (results : ProcessingResults) (nextSteps : List Str) (status : ℕ)
deriving DecidableEq

/-- The `transactions_count` reported by a response. -/
def ProcessResponse.resultsCount : ProcessResponse → ℕ
  | .noTransactions r _ _ => r.transactions_count
  | .completed r _ _ => r.transactions_count

/-- Translation of the transaction-handling core of
`file_processing.process_uploaded_file` (after auth and file checks): when
the parser returned no candidates, answer the distinct
`completed_no_transactions` outcome with zeroed results, HTTP 200 and the
suggestion list, touching nothing; otherwise run the per-candidate
categorize/build loop (step 3, skip-on-error), store each built record
(step 4, skip-on-error) and report totals computed from the processed
records, HTTP 200. -/
def process_uploaded_file (categorize : Str → ℚ → CatInfo) (uid fileId : Str)
    (freshId : ℕ → Str) (db : List TxRow) (candidates : List Candidate) :
    ProcessResponse × List TxRow :=
  if candidates.isEmpty then
    (.noTransactions
      { transactions_count := 0, total_income := 0, total_expenses := 0,
        net_savings := 0, categories := [], transactions := [] }
      noTxSuggestions 200, db)
  else
    let processed := candidates.filterMap (mkTxRecord categorize uid fileId)
    let stored := storeAll freshId 0 db processed
    let total_income : ℚ :=
      ((processed.filter fun t => t.transaction_type == some (str "credit")).map
        (fun t => t.amount.getD 0)).sum
    let total_expenses : ℚ :=
      ((processed.filter fun t => t.transaction_type == some (str "debit")).map
        (fun t => t.amount.getD 0)).sum
    (.completed
      { transactions_count := processed.length, total_income := total_income,
        total_expenses := total_expenses,
        net_savings := total_income - total_expenses,
        categories := categoryBreakdown processed, transactions := processed }
      nextStepsList 200, stored.1)

/-- Record built by the step-3 loop: all five store-required fields present. -/
theorem processed_required (categorize : Str → ℚ → CatInfo) (uid fileId : Str)
    (cands : List Candidate) :
    ∀ r ∈ cands.filterMap (mkTxRecord categorize uid fileId),
      r.user_id.isSome = true ∧ r.date.isSome = true ∧
        r.description.isSome = true ∧ r.amount.isSome = true ∧
        r.transaction_type.isSome = true := by
  intro r hr
  rw [List.mem_filterMap] at hr
  obtain ⟨c, _, heq⟩ := hr
  rcases hd : c.date with _ | d <;> simp [mkTxRecord, hd] at heq
  simp [← heq]

/-- The step-3 loop accepts exactly the candidates with a parseable date. -/
theorem length_processed (categorize : Str → ℚ → CatInfo) (uid fileId : Str)
    (cands : List Candidate) :
    (cands.filterMap (mkTxRecord categorize uid fileId)).length =
      cands.countP (fun c => c.date.isSome) := by
  induction cands with
  | nil => rfl
  | cons c cs ih =>
      rcases hd : c.date with _ | d <;>
        simp [List.filterMap_cons, mkTxRecord, hd, List.countP_cons, ih]

/-- Storing records that all carry the five required fields succeeds for
every record: the ledger grows by one row per record and the
`stored_transactions` counter equals the record count. -/
theorem storeAll_complete (freshId : ℕ → Str) (records : List TxData) :
    ∀ (k : ℕ) (db : List TxRow),
      (∀ r ∈ records, r.user_id.isSome = true ∧ r.date.isSome = true ∧
        r.description.isSome = true ∧ r.amount.isSome = true ∧
        r.transaction_type.isSome = true) →
      (storeAll freshId k db records).1.length = db.length + records.length ∧
      (storeAll freshId k db records).2 = records.length := by
  induction records with
  | nil => intro k db _; simp [storeAll]
  | cons r rs ih =>
      intro k db h
      obtain ⟨h1, h2, h3, h4, h5⟩ := h r (by simp)
      obtain ⟨u, hu⟩ := Option.isSome_iff_exists.1 h1
      obtain ⟨d, hd⟩ := Option.isSome_iff_exists.1 h2
      obtain ⟨de, hde⟩ := Option.isSome_iff_exists.1 h3
      obtain ⟨a, ha⟩ := Option.isSome_iff_exists.1 h4
      obtain ⟨ty, hty⟩ := Option.isSome_iff_exists.1 h5
      have ihr := ih (k + 1)
        (store_transaction db (freshId k) r).db
        (fun x hx => h x (by simp [hx]))
      simp only [storeAll, store_transaction, hu, hd, hde, ha, hty] at *
      constructor
      · rw [ihr.1]
        simp
        omega
      · rw [ihr.2]
        simp
        omega

/-- C8, counterexample: for the five-candidate batch where candidate 3 has a
malformed date, the response reports `transactions_count = 4`, but the
response's `processing_results` object has no `rejected_count` (nor
`accepted_count`) key at all — the rejected count the claim describes is not
reported. -/
theorem claim_C8_counterexample :
    (process_uploaded_file (fun _ _ => ⟨none, none, false, none, false, none⟩)
        (str "u1") (str "f1") (fun _ => str "tid") []
        [⟨some (str "2024-01-01"), str "c1", 10, str "credit"⟩,
         ⟨some (str "2024-01-02"), str "c2", 20, str "debit"⟩,
         ⟨none, str "c3", 30, str "debit"⟩,
         ⟨some (str "2024-01-04"), str "c4", 40, str "credit"⟩,
         ⟨some (str "2024-01-05"), str "c5", 50, str "debit"⟩]).1.resultsCount
      = 4 ∧
    (str "rejected_count") ∉ processingResultsKeys ∧
    (str "accepted_count") ∉ processingResultsKeys := by
  refine ⟨by decide, by decide, by decide⟩

/-- C8 (amended): a nonempty batch is never aborted by a failing candidate —
every candidate with a parseable date is processed and persisted (the ledger
grows by exactly that many rows), the response reports that accepted count as
`transactions_count` — but it reports no rejected count: the
`processing_results` object has no such key. -/
theorem claim_C8 (categorize : Str → ℚ → CatInfo) (uid fileId : Str)
    (freshId : ℕ → Str) (db : List TxRow) (cands : List Candidate)
    (h : cands ≠ []) :
    (process_uploaded_file categorize uid fileId freshId db cands).1.resultsCount
      = cands.countP (fun c => c.date.isSome) ∧
    (process_uploaded_file categorize uid fileId freshId db cands).2.length
      = db.length + cands.countP (fun c => c.date.isSome) ∧
    (str "rejected_count") ∉ processingResultsKeys := by
  have hne : cands.isEmpty = false := by simpa [List.isEmpty_iff] using h
  have hst := storeAll_complete freshId
    (cands.filterMap (mkTxRecord categorize uid fileId)) 0 db
    (processed_required categorize uid fileId cands)
  refine ⟨?_, ?_, by decide⟩
  · simp only [process_uploaded_file, hne, Bool.false_eq_true, if_false,
      ProcessResponse.resultsCount]
    exact length_processed categorize uid fileId cands
  · simp only [process_uploaded_file, hne, Bool.false_eq_true, if_false]
    rw [hst.1, length_processed]

/-- C8, witness: instantiating the amended statement on the five-candidate
batch with one malformed date gives an accepted count of 4 and a ledger of 4
rows, and those 4 rows are retrievable through the ledger query. -/
theorem claim_C8_witness :
    (process_uploaded_file (fun _ _ => ⟨none, none, false, none, false, none⟩)
        (str "u1") (str "f2") (fun _ => str "tid") []
        [⟨some (str "2024-01-01"), str "w1", 10, str "credit"⟩,
         ⟨some (str "2024-01-02"), str "w2", 20, str "debit"⟩,
         ⟨none, str "w3", 30, str "debit"⟩,
         ⟨some (str "2024-01-04"), str "w4", 40, str "credit"⟩,
         ⟨some (str "2024-01-05"), str "w5", 50, str "debit"⟩]).1.resultsCount
      = 4 ∧
    (process_uploaded_file (fun _ _ => ⟨none, none, false, none, false, none⟩)
        (str "u1") (str "f2") (fun _ => str "tid") []
        [⟨some (str "2024-01-01"), str "w1", 10, str "credit"⟩,
         ⟨some (str "2024-01-02"), str "w2", 20, str "debit"⟩,
         ⟨none, str "w3", 30, str "debit"⟩,
         ⟨some (str "2024-01-04"), str "w4", 40, str "credit"⟩,
         ⟨some (str "2024-01-05"), str "w5", 50, str "debit"⟩]).2.length = 4 ∧
    (get_user_transactions
      (process_uploaded_file (fun _ _ => ⟨none, none, false, none, false, none⟩)
        (str "u1") (str "f2") (fun _ => str "tid") []
        [⟨some (str "2024-01-01"), str "w1", 10, str "credit"⟩,
         ⟨some (str "2024-01-02"), str "w2", 20, str "debit"⟩,
         ⟨none, str "w3", 30, str "debit"⟩,
         ⟨some (str "2024-01-04"), str "w4", 40, str "credit"⟩,
         ⟨some (str "2024-01-05"), str "w5", 50, str "debit"⟩]).2
      (str "u1") 1000 0 noFilters).transactions.length = 4 := by
  have h := claim_C8 (fun _ _ => ⟨none, none, false, none, false, none⟩)
    (str "u1") (str "f2") (fun _ => str "tid") []
    [⟨some (str "2024-01-01"), str "w1", 10, str "credit"⟩,
     ⟨some (str "2024-01-02"), str "w2", 20, str "debit"⟩,
     ⟨none, str "w3", 30, str "debit"⟩,
     ⟨some (str "2024-01-04"), str "w4", 40, str "credit"⟩,
     ⟨some (str "2024-01-05"), str "w5", 50, str "debit"⟩] (by decide)
  refine ⟨h.1.trans (by decide), ?_, by decide⟩
  rw [h.2.1]
  decide

/-- C9 (confirmed): when the parser returns zero candidates the orchestrator
answers the distinct successful `no transactions found` outcome — HTTP 200,
zero count, zero totals, empty transaction list and category breakdown, the
ledger untouched — carrying the non-empty list of actionable suggestions. -/
theorem claim_C9 (categorize : Str → ℚ → CatInfo) (uid fileId : Str)
    (freshId : ℕ → Str) (db : List TxRow) :
    process_uploaded_file categorize uid fileId freshId db [] =
      (ProcessResponse.noTransactions
        { transactions_count := 0, total_income := 0, total_expenses := 0,
          net_savings := 0, categories := [], transactions := [] }
        noTxSuggestions 200, db) ∧
    noTxSuggestions ≠ [] ∧ noTxSuggestions.length = 4 :=
  ⟨rfl, by decide, by decide⟩

/-! ## Bearer-token handling: `dashboard.get_user_id_from_request` -/

/-- Python `s.split(sep)` for a one-character separator (empty pieces kept). -/
def splitOnChar (sep : Char) : Str → List Str
  | [] => [[]]
  | c :: rest =>
    let r := splitOnChar sep rest
    if c = sep then [] :: r
    else
      match r with
      | [] => [[c]]
      | s :: ss => (c :: s) :: ss

/-- Opening brace character. -/
def jsonLB : Char := Char.ofNat 123

/-- Closing brace character. -/
def jsonRB : Char := Char.ofNat 125

/-- Value of a base64url alphabet character (RFC 4648 `-_` variant), `none`
outside the alphabet. -/
def b64Val (c : Char) : Option ℕ :=
  if 'A' ≤ c ∧ c ≤ 'Z' then some (c.toNat - 65)
  else if 'a' ≤ c ∧ c ≤ 'z' then some (c.toNat - 97 + 26)
  else if '0' ≤ c ∧ c ≤ '9' then some (c.toNat - 48 + 52)
  else if c = '-' then some 62
  else if c = '_' then some 63
  else none

/-- The 6-bit groups before the first padding character: CPython's lenient
`binascii.a2b_base64` skips characters outside the alphabet and stops at the
first `=`. -/
def b64DataChars : Str → List ℕ
  | [] => []
  | c :: rest =>
    if c = '=' then []
    else
      match b64Val c with
      | none => b64DataChars rest
      | some v => v :: b64DataChars rest

/-- Reassemble bytes from 6-bit groups; a trailing group of a single data
character is a `binascii.Error` (`none`). -/
def b64Bytes : List ℕ → Option (List ℕ)
  | [] => some []
  | [_] => none
  | [v0, v1] => some [v0 * 4 + v1 / 16]
  | [v0, v1, v2] => some [v0 * 4 + v1 / 16, v1 % 16 * 16 + v2 / 4]
  | v0 :: v1 :: v2 :: v3 :: rest =>
    (b64Bytes rest).map fun bs =>
      (v0 * 4 + v1 / 16) :: (v1 % 16 * 16 + v2 / 4) :: (v2 % 4 * 64 + v3) :: bs

/-- Model of `base64.urlsafe_b64decode` on the handler's padded input. -/
def urlsafe_b64decode (s : Str) : Option (List ℕ) := b64Bytes (b64DataChars s)

/-- Padding step of the handler: `payload += '=' * (4 - len(payload) % 4)`
(note: a multiple-of-4 length receives four pads, which the lenient decoder
ignores). -/
def pyPad (p : Str) : Str := p ++ List.replicate (4 - p.length % 4) '='

/-- UTF-8 decoding restricted to ASCII payloads (the JSON exercised here). -/
def asciiOfBytes : List ℕ → Option Str
  | [] => some []
  | b :: bs =>
    if b < 128 then (asciiOfBytes bs).map fun cs => Char.ofNat b :: cs
    else none

/-- Body of a JSON string up to its closing quote (escape sequences not
modelled). -/
def jsonStrBody : Str → Option (Str × Str)
  | [] => none
  | c :: rest =>
    if c = '"' then some ([], rest)
    else if c = '\\' then none
    else (jsonStrBody rest).map fun p => (c :: p.1, p.2)

/-- Comma-separated `"key":"value"` entries up to the closing brace,
returning the entries and the unconsumed remainder.  The first argument is
recursion fuel (any value above the input length is enough). -/
def jsonEntries : ℕ → Str → Option (List (Str × Str) × Str)
  | 0, _ => none
  | n + 1, cs =>
    match cs with
    | c :: rest =>
      if c = '"' then
        match jsonStrBody rest with
        | none => none
        | some (key, rest1) =>
          match rest1 with
          | ':' :: d :: rest2 =>
            if d = '"' then
              match jsonStrBody rest2 with
              | none => none
              | some (val, rest3) =>
                match rest3 with
                | e :: rest4 =>
                  if e = ',' then
                    (jsonEntries n rest4).map fun p => ((key, val) :: p.1, p.2)
                  else if e = jsonRB then some ([(key, val)], rest4)
                  else none
                | [] => none
            else none
          | _ => none
      else none
    | [] => none

/-- Model of `json.loads` restricted to the flat string-valued objects the
JWT payloads of interest are: a braced, whitespace-free object of string
entries, consumed in full. -/
def json_loads_obj (s : Str) : Option (List (Str × Str)) :=
  match s with
  | [] => none
  | c :: rest =>
    if c = jsonLB then
      match rest with
      | [] => none
      | d :: rest1 =>
        if d = jsonRB then (if rest1 = [] then some [] else none)
        else
          match jsonEntries (rest.length + 1) rest with
          | some (obj, []) => some obj
          | _ => none
    else none

/-- Python `dict.get(k)` on the parsed object: duplicate JSON keys resolve to
the last occurrence, as in Python dict construction. -/
def dictGet (k : Str) (obj : List (Str × Str)) : Option Str :=
  obj.reverse.lookup k

/-- Whole payload pipeline of the handler's JWT branch: pad, base64url-decode
and JSON-parse the second dot-separated part of the token. -/
def jwtPayloadObj (payload : Str) : Option (List (Str × Str)) :=
  match urlsafe_b64decode (pyPad payload) with
  | none => none
  | some bytes =>
    match asciiOfBytes bytes with
    | none => none
    | some chars => json_loads_obj chars

/-- Translation of `dashboard.get_user_id_from_request`: require a
`Bearer `-prefixed Authorization header, take `split(' ')[1]` as the token,
try the local session store first, and otherwise — for any token of at least
two dot-separated parts — return the `sub` field of the base64url-decoded
JSON payload.  No signature and no expiry of the JWT are ever examined. -/
def get_user_id_from_request (authdb : AuthDB) (now : ℕ) (auth_header : Str) :
    Option Str :=
  if (str "Bearer ").isPrefixOf auth_header then
    let token := (splitOnChar ' ' auth_header).getD 1 []
    match (verify_token authdb token now).1 with
    | some u => some u.id
    | none =>
      let parts := splitOnChar '.' token
      if 2 ≤ parts.length then
        match jwtPayloadObj (parts.getD 1 []) with
        | some obj => dictGet (str "sub") obj
        | none => none
      else none
  else none

/-- C3 (confirmed): whenever the bearer token is not a valid local session
token but has the JWT shape — at least two dot-separated parts with a
base64url-decodable JSON object payload — the handler answers the payload's
`sub` field as the authenticated user id.  No hypothesis constrains the
signature part or any expiry claim: they are never checked. -/
theorem claim_C3 (authdb : AuthDB) (now : ℕ) (header token : Str)
    (obj : List (Str × Str))
    (hbearer : (str "Bearer ").isPrefixOf header = true)
    (htok : (splitOnChar ' ' header).getD 1 [] = token)
    (hlocal : (verify_token authdb token now).1 = none)
    (hparts : 2 ≤ (splitOnChar '.' token).length)
    (hjson : jwtPayloadObj ((splitOnChar '.' token).getD 1 []) = some obj) :
    get_user_id_from_request authdb now header = dictGet (str "sub") obj := by
  simp only [get_user_id_from_request, hbearer, htok, hlocal, hjson, if_true,
    if_pos hparts]

/-- Encoder character of a 6-bit value (base64url alphabet). -/
def b64Char (v : ℕ) : Char :=
  if v < 26 then Char.ofNat (65 + v)
  else if v < 52 then Char.ofNat (97 + v - 26)
  else if v < 62 then Char.ofNat (48 + v - 52)
  else if v = 62 then '-'
  else '_'

/-- Base64url encoding of a byte list (used to craft a concrete forged
token). -/
def b64urlEncode : List ℕ → Str
  | b0 :: b1 :: b2 :: rest =>
    b64Char (b0 / 4) :: b64Char (b0 % 4 * 16 + b1 / 16) ::
      b64Char (b1 % 16 * 4 + b2 / 64) :: b64Char (b2 % 64) :: b64urlEncode rest
  | [b0, b1] =>
    [b64Char (b0 / 4), b64Char (b0 % 4 * 16 + b1 / 16), b64Char (b1 % 16 * 4), '=']
  | [b0] => [b64Char (b0 / 4), b64Char (b0 % 4 * 16), '=', '=']
  | [] => []

/-- ASCII bytes of a model string. -/
def strBytes (s : Str) : List ℕ := s.map Char.toNat

/-- Unsigned forged token: an arbitrary header part, the base64url encoding
of the JSON object with `sub` set to `victim-user`, and an arbitrary
signature part that no one checks. -/
def forgedToken : Str :=
  str "hdr." ++ b64urlEncode (strBytes (str "\x7b\"sub\":\"victim-user\"\x7d")) ++
    str ".sig"

/-- C3, witness: with an empty session store (so local verification fails),
the crafted unsigned token authenticates as the arbitrary user id
`victim-user`. -/
theorem claim_C3_witness :
    get_user_id_from_request ⟨[], []⟩ 0 (str "Bearer " ++ forgedToken) =
      some (str "victim-user") := by
  have h := claim_C3 ⟨[], []⟩ 0 (str "Bearer " ++ forgedToken) forgedToken
    [(str "sub", str "victim-user")]
    (by decide) (by decide) rfl (by decide) (by decide)
  rw [h]
  decide

end TaxWise
